import Mathlib

/-!
Shallow embedding of `src/query.py` (SSRQ interview exercise).

The script links `tei:persName/@ref` person references in TEI-XML files to a
JSON dump of person records and prints the top-N referenced persons.  We embed
the three pipeline functions `load_data`, `extract_referenced_persons` and
`get_top_persons`, plus the rendering done by `main`, directly from the source:

* a parsed XML document is an `Element` tree (tags carry the expanded
  namespace, as `xml.etree.ElementTree` produces them);
* a Python `dict` is an insertion-ordered association list;
* Python exceptions (`KeyError`, `StopIteration`) are modelled with `Except`;
* `sorted(result, key=lambda x: x[2], reverse=True)` is modelled by the stable
  sort `List.insertionSort` with the relation "count of the left argument is
  at least the count of the right argument", which matches CPython's stable
  sort with a descending numeric key.
-/

namespace Query

/-- A parsed XML element as produced by `xml.etree.ElementTree`: an expanded
tag of the form `\x7buri\x7dlocal`, an attribute dict and the child elements. -/
inductive Element where
  | mk (tag : String) (attribs : List (String × String)) (children : List Element)

/-- Tag of an element. -/
def Element.tag : Element → String
  | .mk t _ _ => t

/-- Attribute dict of an element. -/
def Element.attribs : Element → List (String × String)
  | .mk _ a _ => a

/-- Child elements of an element. -/
def Element.children : Element → List Element
  | .mk _ _ c => c

/-- Expanded qualified name: ElementTree rewrites `pre:local` with
`ns = \x7b"pre": uri\x7d` into `\x7buri\x7dlocal`. -/
def qn (uri localName : String) : String :=
  "\x7b" ++ uri ++ "\x7d" ++ localName

/-- The TEI namespace URI bound to the `tei` key in `query.py`. -/
def teiURI : String := "http://www.tei-c.org/ns/1.0"

mutual

/-- All proper descendants of an element, in document order. -/
def Element.descendants : Element → List Element
  | .mk _ _ cs => descendantsOfForest cs

/-- All elements of a forest together with their descendants, document order. -/
def descendantsOfForest : List Element → List Element
  | [] => []
  | c :: cs => c :: (Element.descendants c ++ descendantsOfForest cs)

end

/-- Evaluation of `root.findall(".//" ++ tag ++ "[@ref]", ns)`: every proper descendant of
`root`, in document order, whose expanded tag equals `tag` (case-sensitively)
and that carries a `ref` attribute. -/
def findallDeep (tag : String) (root : Element) : List Element :=
  root.descendants.filter
    (fun e => e.tag == tag && (e.attribs.lookup "ref").isSome)

/-- Python `d[k] = v` on an insertion-ordered dict: update the value in place
when the key is present, append the binding otherwise. -/
def dictSet (d : List (String × Nat)) (k : String) (v : Nat) :
    List (String × Nat) :=
  if (d.lookup k).isSome then
    d.map (fun p => if p.1 == k then (k, v) else p)
  else
    d ++ [(k, v)]

/-- Python `s[:n]` on a string: the first `n` characters, the whole string
when it is shorter. -/
def strTake (s : String) (n : Nat) : String :=
  String.mk (s.data.take n)

/-- The tag the source actually searches for: `tei:persname` (lower case),
expanded against the `tei` namespace binding. -/
def persnameSearchTag : String := qn teiURI "persname"

/-- Embedding of `extract_referenced_persons` from `query.py`: for each document, for each
`findall(".//tei:persname[@ref]", ns)` match, take the `ref` value, truncate
it with `ref[:9]` and execute `persons[ref] = 1`. -/
def extract_referenced_persons (xml_files : List Element) :
    List (String × Nat) :=
  xml_files.foldl
    (fun persons file =>
      (findallDeep persnameSearchTag file).foldl
        (fun persons person =>
          match person.attribs.lookup "ref" with
          | some ref => dictSet persons (strTake ref 9) 1
          | none => persons)
        persons)
    []

/-- The Python exceptions the embedded fragments can raise. -/
inductive PyError where
  | keyError (key : String)
  | stopIteration
deriving DecidableEq

/-- The `while True: xml_files.append(next(file_list).read_text())` loop of
`load_data`: it calls `next` unconditionally, so once the finite iterator is
exhausted the `StopIteration` escapes; the accumulated list is abandoned. -/
def load_loop (acc : List String) : List String → Except PyError (List String)
  | [] => Except.error PyError.stopIteration
  | f :: fs => load_loop (acc ++ [f]) fs

/-- Embedding of `load_data` from `query.py`, over the finite list of contents of the
files matched by `data_dir.glob("*-1.xml")` and the already-parsed dataset:
run the reading loop, then (only if it returns) pair its result with the
dataset. -/
def load_data (files : List String) (db : List (List (String × String))) :
    Except PyError (List String × List (List (String × String))) :=
  (load_loop [] files).map (fun xml_files => (xml_files, db))

/-- The inner `for person in db` loop of `get_top_persons` for one reference:
`if person["name"] == person_id: result.append((person["name"], person["id"],
count))`.  A missing key raises `KeyError`. -/
def innerJoin (person_id : String) (count : Nat) :
    List (List (String × String)) → Except PyError (List (String × String × Nat))
  | [] => Except.ok []
  | person :: ps =>
    match person.lookup "name" with
    | none => Except.error (PyError.keyError "name")
    | some nm =>
      if nm = person_id then
        match person.lookup "id" with
        | none => Except.error (PyError.keyError "id")
        | some pid =>
          (innerJoin person_id count ps).map (fun r => (nm, pid, count) :: r)
      else innerJoin person_id count ps

/-- The outer `for person_id, count in references.items()` loop of
`get_top_persons`, accumulating the appended triples in order. -/
def joinRefs (db : List (List (String × String))) :
    List (String × Nat) → Except PyError (List (String × String × Nat))
  | [] => Except.ok []
  | (person_id, count) :: rest =>
    (innerJoin person_id count db).bind
      (fun xs => (joinRefs db rest).map (fun ys => xs ++ ys))

/-- The order used by `sorted(result, key=lambda x: x[2], reverse=True)`:
left argument ranks no later than right argument iff its count is at least
the right one's. -/
def pySortRel (a b : String × String × Nat) : Prop := b.2.2 ≤ a.2.2

instance : DecidableRel pySortRel := fun a b => Nat.decLe b.2.2 a.2.2

instance : IsTotal (String × String × Nat) pySortRel :=
  ⟨fun a b => Nat.le_total b.2.2 a.2.2⟩

instance : IsTrans (String × String × Nat) pySortRel :=
  ⟨fun _ _ _ hab hbc => Nat.le_trans hbc hab⟩

/-- Embedding of `get_top_persons` from `query.py`: run the two join loops, then
`sorted(result, key=lambda x: x[2], reverse=True)[:n]` (a stable sort on the
count, descending, then truncation). -/
def get_top_persons (references : List (String × Nat))
    (db : List (List (String × String))) (n : Nat) :
    Except PyError (List (String × String × Nat)) :=
  (joinRefs db references).map
    (fun result => (List.insertionSort pySortRel result).take n)

/-- The module constant `TOP = 10`. -/
def TOP : Nat := 10

/-- The header `main` prints: the f-string interpolates the module constant
`TOP`, not the `top_n` argument. -/
def main_header (_top_n : Nat) : String :=
  "Die " ++ toString TOP ++ " am häufigsten referenzierten Personen sind:"

/-- One output line of `main`: `f"\x7bname\x7d (\x7bperson_id\x7d) - \x7bcount\x7d Referenzen"`. -/
def render_line (e : String × String × Nat) : String :=
  e.1 ++ " (" ++ e.2.1 ++ ") - " ++ toString e.2.2 ++ " Referenzen"

/-- The entry lines `main` prints, one per ranked entry. -/
def main_lines (top_names : List (String × String × Nat)) : List String :=
  top_names.map render_line

/-- A document whose two matched elements carry the same reference value
(one of them nested one level deeper), to probe the counting behaviour. -/
def c1doc : Element :=
  Element.mk (qn teiURI "TEI") [] [
    Element.mk persnameSearchTag [("ref", "P000123456")] [],
    Element.mk (qn teiURI "p") [] [
      Element.mk persnameSearchTag [("ref", "P000123456")] []]]

/-- A one-record dataset whose identifier field is the 9-character id
`P00012345` and whose display name is `Rudolf`. -/
def c3db : List (List (String × String)) :=
  [[("id", "P00012345"), ("name", "Rudolf")]]

/-- The document of Scenario A: three `persName` elements (camel case, as TEI
prescribes and as the script docstring states) with references `P000123456`,
`P0001234-x`, `P000123456`. -/
def scenarioA_doc : Element :=
  Element.mk (qn teiURI "TEI") [] [
    Element.mk (qn teiURI "persName") [("ref", "P000123456")] [],
    Element.mk (qn teiURI "persName") [("ref", "P0001234-x")] [],
    Element.mk (qn teiURI "persName") [("ref", "P000123456")] []]

/-- The dataset of Scenario A. -/
def scenarioA_db : List (List (String × String)) :=
  [[("id", "P000123456"), ("name", "Rudolf")]]

/-- A document whose two matched elements carry distinct raw references that
share the same first 9 characters. -/
def c6doc : Element :=
  Element.mk (qn teiURI "TEI") [] [
    Element.mk persnameSearchTag [("ref", "AAAABBBBB1")] [],
    Element.mk persnameSearchTag [("ref", "AAAABBBBB2")] []]

/-- A document whose matched element carries an empty reference value. -/
def c7doc : Element :=
  Element.mk (qn teiURI "TEI") [] [
    Element.mk persnameSearchTag [("ref", "")] []]

/-- Mapping `Except.map` over an error is that error. -/
theorem exceptMap_error {ε α β : Type} (f : α → β) (e : ε) :
    (Except.error e : Except ε α).map f = Except.error e := rfl

/-- Mapping `Except.map` over a success applies the function. -/
theorem exceptMap_ok {ε α β : Type} (f : α → β) (a : α) :
    (Except.ok a : Except ε α).map f = Except.ok (f a) := rfl

/-- Binding `Except.bind` on an error is that error. -/
theorem exceptBind_error {ε α β : Type} (f : α → Except ε β) (e : ε) :
    (Except.error e : Except ε α).bind f = Except.error e := rfl

/-- Binding `Except.bind` on a success applies the continuation. -/
theorem exceptBind_ok {ε α β : Type} (f : α → Except ε β) (a : α) :
    (Except.ok a : Except ε α).bind f = f a := rfl

/-- The reading loop of `load_data` ends in `StopIteration` on every finite
file list, whatever has been accumulated so far. -/
theorem load_loop_error :
    ∀ (files acc : List String),
      load_loop acc files = Except.error PyError.stopIteration
  | [], _ => rfl
  | f :: fs, acc => load_loop_error fs (acc ++ [f])

/-- A successful `get_top_persons` run determines a successful join whose
sorted-and-truncated image is the returned list. -/
theorem get_top_ok_join {references : List (String × Nat)}
    {db : List (List (String × String))} {n : Nat}
    {l : List (String × String × Nat)}
    (h : get_top_persons references db n = Except.ok l) :
    ∃ result, joinRefs db references = Except.ok result ∧
      l = (List.insertionSort pySortRel result).take n := by
  unfold get_top_persons at h
  cases hj : joinRefs db references with
  | error e =>
    rw [hj, exceptMap_error] at h
    exact absurd h (by simp)
  | ok result =>
    rw [hj, exceptMap_ok] at h
    exact ⟨result, rfl, (Except.ok.inj h).symm⟩

/-- If the inner join loop over the dataset returns normally, every dataset
record whose name field equals the probed reference has an `id` key. -/
theorem innerJoin_ok_id {person_id : String} {count : Nat} :
    ∀ {db : List (List (String × String))}
      {xs : List (String × String × Nat)},
      innerJoin person_id count db = Except.ok xs →
      ∀ p ∈ db, p.lookup "name" = some person_id →
        (p.lookup "id").isSome = true := by
  intro db
  induction db with
  | nil =>
    intro xs _ p hp
    cases hp
  | cons q qs ih =>
    intro xs h p hp hname
    rw [List.mem_cons] at hp
    unfold innerJoin at h
    split at h
    next hn =>
      exact absurd h (by simp)
    next nm hn =>
      split at h
      next he =>
        split at h
        next hid =>
          exact absurd h (by simp)
        next pid hid =>
          rcases hp with rfl | hp
          · rw [hid]
            rfl
          · cases hrec : innerJoin person_id count qs with
            | error e =>
              rw [hrec, exceptMap_error] at h
              exact absurd h (by simp)
            | ok r =>
              exact ih hrec p hp hname
      next he =>
        rcases hp with rfl | hp
        · rw [hname] at hn
          exact absurd (Option.some.inj hn).symm he
        · exact ih h p hp hname

/-- If the outer join loop returns normally, the inner loop returned normally
for every entry of the references dict. -/
theorem joinRefs_ok_inner {db : List (List (String × String))} :
    ∀ {refs : List (String × Nat)} {xs : List (String × String × Nat)},
      joinRefs db refs = Except.ok xs →
      ∀ pr ∈ refs, ∃ ys, innerJoin pr.1 pr.2 db = Except.ok ys := by
  intro refs
  induction refs with
  | nil =>
    intro xs _ pr hpr
    cases hpr
  | cons q qs ih =>
    intro xs h pr hpr
    obtain ⟨qid, qcount⟩ := q
    rw [List.mem_cons] at hpr
    unfold joinRefs at h
    cases hq : innerJoin qid qcount db with
    | error e =>
      rw [hq, exceptBind_error] at h
      exact absurd h (by simp)
    | ok zs =>
      rw [hq, exceptBind_ok] at h
      rcases hpr with rfl | hpr
      · exact ⟨zs, hq⟩
      · cases hrest : joinRefs db qs with
        | error e =>
          rw [hrest, exceptMap_error] at h
          exact absurd h (by simp)
        | ok ys =>
          exact ih hrest pr hpr

/-- C1: the claim fails on the code.  A single document with two occurrences
of the same CanonicalID (`P000123456`, truncating to `P00012345`, once at the
top level and once nested) yields a count of 1, because `persons[ref] = 1`
overwrites instead of incrementing; the claim requires the count 2. -/
theorem extract_overwrites_count :
    (findallDeep persnameSearchTag c1doc).length = 2 ∧
      extract_referenced_persons [c1doc] = [("P00012345", 1)] := by
  constructor
  · rfl
  · decide

/-- C2: the claim fails on the code.  For every finite list of matching files
(and every dataset), `load_data` never returns its result: the
`while True: xml_files.append(next(file_list).read_text())` loop only stops
when `StopIteration` escapes, so the function always ends in that error. -/
theorem load_data_never_returns (files : List String)
    (db : List (List (String × String))) :
    load_data files db = Except.error PyError.stopIteration := by
  unfold load_data
  rw [load_loop_error, exceptMap_error]

/-- C3: the claim fails on the code.  A reference equal to a record's
identifier field is dropped, while a "reference" equal to a record's display
name resolves: the join compares `person["name"]` with the CanonicalID. -/
theorem join_uses_name_field :
    get_top_persons [("P00012345", 2)] c3db 1 = Except.ok [] ∧
      get_top_persons [("Rudolf", 2)] c3db 1 =
        Except.ok [("Rudolf", "P00012345", 2)] :=
  ⟨rfl, rfl⟩

/-- C4: the claim fails on the code.  With one referenced CanonicalID
`P00012345`, a dataset containing exactly one record whose identifier field is
`P00012345`, and n = 1, the claim requires exactly min(1, 1) = 1 entry, but
the code returns 0 entries (its name-keyed join finds no match). -/
theorem get_top_wrong_cardinality :
    (c3db.filter (fun p => p.lookup "id" == some "P00012345")).length = 1 ∧
      get_top_persons [("P00012345", 1)] c3db 1 = Except.ok [] :=
  ⟨rfl, rfl⟩

/-- C5: the claim fails on the code.  The script searches for the tag
`tei:persname` while the documents (and the script's own docstring) use
`tei:persName`; the case-sensitive match finds none of the three elements of
Scenario A, so nothing is extracted and the top-1 list is empty rather than
the expected `Rudolf (P000123456) - 2 Referenzen` line. -/
theorem scenarioA_finds_nothing :
    findallDeep persnameSearchTag scenarioA_doc = [] ∧
      extract_referenced_persons [scenarioA_doc] = [] ∧
      get_top_persons (extract_referenced_persons [scenarioA_doc])
          scenarioA_db 1 = Except.ok [] ∧
      main_lines [] = [] :=
  ⟨rfl, rfl, rfl, rfl⟩

/-- C6: the claim fails on the code.  Two distinct raw identifiers
`AAAABBBBB1` and `AAAABBBBB2` both truncate to the 9-character CanonicalID
`AAAABBBBB` and collapse onto one key, but its count is 1, not the sum 2 of
the two occurrence counts, because `persons[ref] = 1` overwrites. -/
theorem extract_collapse_count_one :
    strTake "AAAABBBBB1" 9 = "AAAABBBBB" ∧
      strTake "AAAABBBBB2" 9 = "AAAABBBBB" ∧
      extract_referenced_persons [c6doc] = [("AAAABBBBB", 1)] := by
  refine ⟨by decide, by decide, by decide⟩

/-- C7: the claim fails on the code.  A matched element whose `ref` value is
the empty string is not skipped: the code counts it under the empty
CanonicalID, so the result is `[("", 1)]` instead of the empty mapping. -/
theorem extract_counts_empty_ref :
    extract_referenced_persons [c7doc] = [("", 1)] := by
  decide

/-- C8: every list that `get_top_persons` returns is sorted non-increasing by
count (the third component), and the function is deterministic: a repeated
run on the same references and dataset yields the same list. -/
theorem get_top_persons_sorted_deterministic
    (references : List (String × Nat)) (db : List (List (String × String)))
    (n : Nat) (l : List (String × String × Nat))
    (h : get_top_persons references db n = Except.ok l) :
    List.Sorted pySortRel l ∧
      ∀ l₂, get_top_persons references db n = Except.ok l₂ → l₂ = l := by
  constructor
  · obtain ⟨result, -, rfl⟩ := get_top_ok_join h
    exact List.Pairwise.sublist (List.take_sublist n _)
      (List.sorted_insertionSort pySortRel result)
  · intro l₂ h₂
    rw [h] at h₂
    exact (Except.ok.inj h₂).symm

/-- C8 witness: on a concrete two-person input the returned list is sorted
non-increasing by count and is the unique possible output. -/
theorem get_top_persons_sorted_deterministic_witness :
    List.Sorted pySortRel
        ([("B", "y", 5), ("A", "x", 2)] : List (String × String × Nat)) ∧
      ∀ l₂, get_top_persons [("A", 2), ("B", 5)]
          [[("name", "A"), ("id", "x")], [("name", "B"), ("id", "y")]] 2 =
          Except.ok l₂ → l₂ = [("B", "y", 5), ("A", "x", 2)] :=
  get_top_persons_sorted_deterministic _ _ _ _ rfl

/-- C9: the claim fails on the code.  The header line interpolates the module
constant `TOP = 10` for every requested `top_n`, so for the requested value 5
the header does not state 5. -/
theorem main_header_ignores_requested_n :
    (∀ top_n : Nat, main_header top_n =
        "Die 10 am häufigsten referenzierten Personen sind:") ∧
      main_header 5 ≠ "Die 5 am häufigsten referenzierten Personen sind:" := by
  constructor
  · intro top_n
    rfl
  · decide

/-- C10: `get_top_persons` returns normally only when every dataset record
whose name field equals a key of the references dict also has an `id` key;
and on a record with only the keys `ID` and `name` (the repository's dataset
shape) whose name is referenced, it raises `KeyError` instead of returning. -/
theorem get_top_persons_requires_id (references : List (String × Nat))
    (db : List (List (String × String))) (n : Nat) :
    (∀ l, get_top_persons references db n = Except.ok l →
      ∀ p ∈ db, ∀ nm, p.lookup "name" = some nm →
        (∃ c, (nm, c) ∈ references) → (p.lookup "id").isSome = true) ∧
      get_top_persons [("Rudolf", 3)]
          [[("ID", "P000123456"), ("name", "Rudolf")]] 5 =
        Except.error (PyError.keyError "id") := by
  constructor
  · rintro l h p hp nm hname ⟨c, hc⟩
    obtain ⟨result, hres, -⟩ := get_top_ok_join h
    obtain ⟨ys, hys⟩ := joinRefs_ok_inner hres (nm, c) hc
    exact innerJoin_ok_id hys p hp hname
  · rfl

/-- C10 witness: on a concrete run that returns normally the matched record
does have an `id` key, and the concrete `ID`-only record raises `KeyError`. -/
theorem get_top_persons_requires_id_witness :
    (List.lookup "id" [("name", "A"), ("id", "x")]).isSome = true ∧
      get_top_persons [("Rudolf", 3)]
          [[("ID", "P000123456"), ("name", "Rudolf")]] 5 =
        Except.error (PyError.keyError "id") :=
  ⟨(get_top_persons_requires_id [("A", 1)] [[("name", "A"), ("id", "x")]] 1).1
      [("A", "x", 1)] rfl [("name", "A"), ("id", "x")] (by simp)
      "A" rfl ⟨1, by simp⟩,
    (get_top_persons_requires_id [] [] 0).2⟩

end Query
